import Mathlib

/-!
Shallow embedding of the aggregation core of the e-commerce analytics
dashboard (`dashboard/dashboard.py`) together with proofs about the
claims of its specification.

Modelling conventions:
* One Order Fact row per order line item, as in the source CSV.
  Identifier- and label-valued columns (`order_id`, `customer_id`,
  `customer_state`, `name_product`) are modelled as numeric codes
  (`Nat`); pandas sorts string-valued group keys lexicographically, and
  the numeric order stands in for that total order — no claim depends
  on which total order arranges the keys.
* `order_approved_at` timestamps are minutes since an epoch (`Nat`);
  truncation of a timestamp to its calendar date is division by
  `minutesPerDay = 1440`.  A raw row carries `Option Nat` because the
  column may be absent for unapproved orders; pandas comparisons with
  `NaT` are false, so such rows never pass the date filter.
* Money columns (`price`, `payment_value`) are integer cents (`Int`).
* pandas `groupby` sorts its keys; this is modelled with
  `List.insertionSort` on the keys.  `sort_values` on a column is
  modelled the same way (the spec leaves the tie-break unspecified).
* Attributes of the source tables that no modelled component reads
  (`customer_city`, `seller_city`, `payment_type`,
  `payment_installments`) are omitted from the row structures.
-/

/-- Number of minutes in a calendar day; dividing a timestamp by this
constant truncates it to its date. -/
def minutesPerDay : Nat := 1440

/-- A raw Order Fact row of `all_df` (one row per order line item).
`order_approved_at` may be absent (pandas `NaT`). -/
structure OrderRow where
  order_id : Nat
  order_item_id : Nat
  customer_id : Nat
  customer_state : Nat
  name_product : Nat
  order_approved_at : Option Nat
  price : Int
  payment_value : Int
deriving DecidableEq

/-- An Order Fact row that passed the date filter: the approval
timestamp is present. -/
structure ApprovedOrder where
  order_id : Nat
  order_item_id : Nat
  customer_id : Nat
  customer_state : Nat
  name_product : Nat
  order_approved_at : Nat
  price : Int
  payment_value : Int
deriving DecidableEq

/-- The calendar date (day index) of a filtered row's approval
timestamp. -/
def approvalDay (r : ApprovedOrder) : Nat :=
  r.order_approved_at / minutesPerDay

/-- Keep the approval timestamp of a raw row, dropping all rows whose
timestamp is absent. -/
def keepApproved (r : OrderRow) (t : Nat) : ApprovedOrder :=
  { order_id := r.order_id
    order_item_id := r.order_item_id
    customer_id := r.customer_id
    customer_state := r.customer_state
    name_product := r.name_product
    order_approved_at := t
    price := r.price
    payment_value := r.payment_value }

/-- The Date-Range Filter (`main_df`, dashboard.py lines 78-79): the
chosen `start_date`/`end_date` are calendar dates, converted by
`pd.to_datetime` to their midnight timestamps, and the raw timestamp
column is compared against those midnights.  Rows without an approval
timestamp never satisfy the comparison. -/
def mainDf (all : List OrderRow) (startDay endDay : Nat) : List ApprovedOrder :=
  all.filterMap (fun r =>
    match r.order_approved_at with
    | some t =>
        if startDay * minutesPerDay ≤ t ∧ t ≤ endDay * minutesPerDay then
          some (keepApproved r t)
        else none
    | none => none)

/-- Modelled from the spec's words (§4.1: "timestamp truncated to date
for comparison boundaries"): the filter the specification describes,
which truncates each row's timestamp to its calendar date before
comparing with the boundary dates.  Kept for comparison with `mainDf`,
which is translated from the source. -/
def specTruncatingFilter (all : List OrderRow) (startDay endDay : Nat) :
    List ApprovedOrder :=
  all.filterMap (fun r =>
    match r.order_approved_at with
    | some t =>
        if startDay ≤ t / minutesPerDay ∧ t / minutesPerDay ≤ endDay then
          some (keepApproved r t)
        else none
    | none => none)

/-- The filter condition the code actually implements, phrased on
calendar dates: a row is kept iff its date is at least `startDay` and
either its date is strictly before `endDay` or its timestamp is exactly
midnight of `endDay`. -/
def dateWindowFilter (all : List OrderRow) (startDay endDay : Nat) :
    List ApprovedOrder :=
  all.filterMap (fun r =>
    match r.order_approved_at with
    | some t =>
        if startDay ≤ t / minutesPerDay ∧
            (t / minutesPerDay < endDay ∨ t = endDay * minutesPerDay) then
          some (keepApproved r t)
        else none
    | none => none)

/-- One row of the Daily Orders Rollup (`create_daily_orders_df`):
a calendar day, the count of distinct orders approved that day, and the
summed price. -/
structure DailyRow where
  day : Nat
  order_count : Nat
  revenue : Int
deriving DecidableEq

/-- Earliest approval date present in a filtered table (`0` if empty). -/
def minApprovalDay : List ApprovedOrder → Nat
  | [] => 0
  | r :: rest => (rest.map approvalDay).foldl min (approvalDay r)

/-- Latest approval date present in a filtered table (`0` if empty). -/
def maxApprovalDay : List ApprovedOrder → Nat
  | [] => 0
  | r :: rest => (rest.map approvalDay).foldl max (approvalDay r)

/-- `order_id: "nunique"` aggregated over one resample bin: the number
of distinct orders approved on day `d`. -/
def ordersOnDay (df : List ApprovedOrder) (d : Nat) : Nat :=
  ((df.filter (fun r => approvalDay r = d)).map (fun r => r.order_id)).dedup.length

/-- `price: "sum"` aggregated over one resample bin. -/
def revenueOnDay (df : List ApprovedOrder) (d : Nat) : Int :=
  ((df.filter (fun r => approvalDay r = d)).map (fun r => r.price)).sum

/-- The Daily Orders Rollup (`create_daily_orders_df`, dashboard.py
lines 12-23): `df.resample(rule='D', on='order_approved_at')` buckets
the rows into one bin per calendar day from the earliest to the latest
approval date — including intermediate days with no rows — and
aggregates each bin with `order_id: nunique` and `price: sum`. -/
def create_daily_orders_df (df : List ApprovedOrder) : List DailyRow :=
  match df with
  | [] => []
  | r :: rest =>
      let a := minApprovalDay (r :: rest)
      let b := maxApprovalDay (r :: rest)
      (List.range' a (b + 1 - a)).map (fun d =>
        { day := d
          order_count := ordersOnDay (r :: rest) d
          revenue := revenueOnDay (r :: rest) d })

/-- One row of the Product Quantity Ranking. -/
structure ProdRow where
  name_product : Nat
  quantity : Nat
deriving DecidableEq

/-- Descending comparison on the `quantity` column
(`sort_values(ascending=False)`). -/
def qtyGE (a b : ProdRow) : Prop := b.quantity ≤ a.quantity

/-- Ascending comparison on the `quantity` column
(`sort_values(ascending=True)`). -/
def qtyLE (a b : ProdRow) : Prop := a.quantity ≤ b.quantity

instance : DecidableRel qtyGE := fun a b =>
  inferInstanceAs (Decidable (b.quantity ≤ a.quantity))

instance : DecidableRel qtyLE := fun a b =>
  inferInstanceAs (Decidable (a.quantity ≤ b.quantity))

instance : IsTotal ProdRow qtyGE := ⟨fun a b => Nat.le_total b.quantity a.quantity⟩

instance : IsTotal ProdRow qtyLE := ⟨fun a b => Nat.le_total a.quantity b.quantity⟩

instance : IsTrans ProdRow qtyGE := ⟨fun _ _ _ h1 h2 => Nat.le_trans h2 h1⟩

instance : IsTrans ProdRow qtyLE := ⟨fun _ _ _ h1 h2 => Nat.le_trans h1 h2⟩

/-- The Product Quantity Ranking (`create_sum_order_items_df`,
dashboard.py lines 25-29): group by `name_product` (pandas sorts group
keys), sum `order_item_id` as the quantity proxy, then sort descending
by the summed quantity. -/
def create_sum_order_items_df (df : List ApprovedOrder) : List ProdRow :=
  List.insertionSort qtyGE
    ((List.insertionSort (fun a b : Nat => a ≤ b)
        ((df.map (fun r => r.name_product)).dedup)).map (fun p =>
      { name_product := p
        quantity :=
          ((df.filter (fun r => r.name_product = p)).map
            (fun r => r.order_item_id)).sum }))

/-- The "best performing" ranking: labels of the first five rows of the
descending-sorted aggregate (dashboard.py line 123). -/
def bestProducts (df : List ApprovedOrder) : List Nat :=
  ((create_sum_order_items_df df).take 5).map (fun r => r.name_product)

/-- The "worst performing" ranking: labels of the first five rows after
re-sorting the aggregate ascending (dashboard.py line 131). -/
def worstProducts (df : List ApprovedOrder) : List Nat :=
  ((List.insertionSort qtyLE (create_sum_order_items_df df)).take 5).map
    (fun r => r.name_product)

/-- Quantity of the fifth row of the descending-sorted aggregate. -/
def fifthLargestQuantity (df : List ApprovedOrder) : Nat :=
  (((create_sum_order_items_df df).map (fun r => r.quantity)).getD 4 0)

/-- Quantity of the fifth row of the ascending-sorted aggregate. -/
def fifthSmallestQuantity (df : List ApprovedOrder) : Nat :=
  (((List.insertionSort qtyLE (create_sum_order_items_df df)).map
    (fun r => r.quantity)).getD 4 0)

/-- One row of the Customer-by-State count. -/
structure StateRow where
  customer_state : Nat
  customer_count : Nat
deriving DecidableEq

/-- The Customer-by-State count (`create_bystate_df`, dashboard.py
lines 31-37): group by `customer_state` (keys sorted by pandas) and
count distinct `customer_id` values per state. -/
def create_bystate_df (df : List ApprovedOrder) : List StateRow :=
  (List.insertionSort (fun a b : Nat => a ≤ b)
      ((df.map (fun r => r.customer_state)).dedup)).map (fun s =>
    { customer_state := s
      customer_count :=
        ((df.filter (fun r => r.customer_state = s)).map
          (fun r => r.customer_id)).dedup.length })

/-- One row of an RFM table. -/
structure RFMRow where
  customer_id : Nat
  recency : Int
  frequency : Nat
  monetary : Int
deriving DecidableEq

/-- The latest approval date of one customer's rows, as computed by
`create_rfm_df`: `max` of the timestamps, then truncation to a date
(`.dt.date` after the `max` aggregate). -/
def latestApprovalDate (df : List ApprovedOrder) (c : Nat) : Nat :=
  (((df.filter (fun r => r.customer_id = c)).map
    (fun r => r.order_approved_at)).foldl max 0) / minutesPerDay

/-- The reference "current date" of `create_rfm_df` (dashboard.py line
48): truncate every timestamp of the input table to its date and take
the maximum. -/
def referenceDate (df : List ApprovedOrder) : Nat :=
  (df.map approvalDay).foldl max 0

/-- The RFM Segmentation (`create_rfm_df`, dashboard.py lines 39-52):
group by `customer_id` (keys sorted by pandas); per customer the
recency in days from the reference date to the customer's latest
approval date, the count of distinct orders, and the summed payment
value. -/
def create_rfm_df (df : List ApprovedOrder) : List RFMRow :=
  (List.insertionSort (fun a b : Nat => a ≤ b)
      ((df.map (fun r => r.customer_id)).dedup)).map (fun c =>
    { customer_id := c
      recency := (referenceDate df : Int) - (latestApprovalDate df c : Int)
      frequency :=
        ((df.filter (fun r => r.customer_id = c)).map
          (fun r => r.order_id)).dedup.length
      monetary :=
        ((df.filter (fun r => r.customer_id = c)).map
          (fun r => r.payment_value)).sum })

/-- The maximum approval timestamp over the full raw table, skipping
absent values (`pd.to_datetime(all_df['order_approved_at']).max()`,
dashboard.py line 576). -/
def maxApprovedTs (all : List OrderRow) : Nat :=
  (all.filterMap (fun r => r.order_approved_at)).foldl max 0

/-- The RFM table the dashboard displays (dashboard.py lines 576-584).
It is recomputed from `all_df` — the full, unfiltered table — with
`current_date` the maximum approval timestamp of the full table, and
recency the whole-day floor of the timestamp difference.  The chosen
date range `s`, `e` is accepted for comparison with the claim but,
as in the source, does not enter the computation.  (A customer none of
whose rows carries an approval timestamp would have an undefined
recency in the source; the model measures such a customer from the
epoch, a case outside every claim considered here.) -/
def displayed_rfm_df (all : List OrderRow) (_startDay _endDay : Nat) :
    List RFMRow :=
  let curr := maxApprovedTs all
  (List.insertionSort (fun a b : Nat => a ≤ b)
      ((all.map (fun r => r.customer_id)).dedup)).map (fun c =>
    let rows := all.filter (fun r => r.customer_id = c)
    { customer_id := c
      recency :=
        (((curr - (rows.filterMap (fun r => r.order_approved_at)).foldl max 0)
          / minutesPerDay : Nat) : Int)
      frequency := ((rows.map (fun r => r.order_id)).dedup).length
      monetary := (rows.map (fun r => r.payment_value)).sum })

/-- Distinct values of a list in order of first appearance — the
`uniques` half of `pd.factorize`. -/
def firstSeen {α : Type} [DecidableEq α] (l : List α) : List α :=
  l.foldl (fun acc x => if x ∈ acc then acc else acc ++ [x]) []

/-- Code assignment of `pd.factorize`, carrying the values seen so far:
a value already seen gets its existing index, a new value gets the next
sequential index. -/
def factorizeGo {α : Type} [DecidableEq α] : List α → List α → List Nat
  | [], _ => []
  | x :: xs, seen =>
      if x ∈ seen then seen.indexOf x :: factorizeGo xs seen
      else seen.length :: factorizeGo xs (seen ++ [x])

/-- `pd.factorize(...)[0]`: the integer code of each element, in
first-seen enumeration order. -/
def factorize {α : Type} [DecidableEq α] (l : List α) : List Nat :=
  factorizeGo l []

/-- One Geo Fact row (coordinates in units of 1/10000 degree). -/
structure GeoRow where
  geolocation_lat : Int
  geolocation_lng : Int
  customer_state : Nat
deriving DecidableEq

/-- The geospatial section's color palette (dashboard.py lines
642-645); its length (8) is the modulus of the bucketing. -/
def geoPalette : List String :=
  ["#003f5c", "#2f4b7c", "#665191", "#a05195",
   "#d45087", "#f95d6a", "#ff7c43", "#ffa600"]

/-- Geographic Bucketing (dashboard.py line 680):
`geo_df['color_group'] = pd.factorize(geo_df['customer_state'])[0] %
len(colors)`. -/
def addColorGroups (geo : List GeoRow) : List Nat :=
  (factorize (geo.map (fun r => r.customer_state))).map
    (fun code => code % geoPalette.length)

/-- A Brazil boundary value: either a boundary dataset identified by
its provenance, or the hardcoded bounding box (coordinates in units of
1/10000 degree). -/
inductive Boundary where
  | dataset (provenance : String) : Boundary
  | boundingBox (xmin ymin xmax ymax : Int) : Boundary
deriving DecidableEq

/-- The hardcoded approximate Brazil bounding box (dashboard.py line
675): `xmin, ymin, xmax, ymax = -73.9922, -33.7683, -34.7299, 5.2713`. -/
def brazilBboxFallback : Boundary :=
  .boundingBox (-739922) (-337683) (-347299) 52713

/-- The three-tier Brazil boundary acquisition (dashboard.py lines
664-677): try the local bundled dataset; on any failure try the
network-fetched dataset; on any failure take the hardcoded bounding
box.  The first two tiers are external calls that may fail (modelled
as `Except`); the bare `except:` clauses of the source catch every
failure. -/
def acquireBrazilBoundary (localTier netTier : Except String Boundary) :
    Except String Boundary :=
  match localTier with
  | .ok b => .ok b
  | .error _ =>
      match netTier with
      | .ok b => .ok b
      | .error _ => .ok brazilBboxFallback

/-- Abbreviation for building filtered-table rows of example data. -/
def mkOrd (oid item cid st prod ts : Nat)
    (price pay : Int) : ApprovedOrder :=
  { order_id := oid, order_item_id := item, customer_id := cid,
    customer_state := st, name_product := prod, order_approved_at := ts,
    price := price, payment_value := pay }

/-- Abbreviation for building raw-table rows of example data. -/
def mkRaw (oid item cid st prod : Nat)
    (ts : Option Nat) (price pay : Int) : OrderRow :=
  { order_id := oid, order_item_id := item, customer_id := cid,
    customer_state := st, name_product := prod, order_approved_at := ts,
    price := price, payment_value := pay }

/-- Raw table for C1: customer 1 approved on day 0, customer 2
approved on day 2. -/
def exC1 : List OrderRow :=
  [mkRaw 1 1 1 1 1 (some 0) 10 10,
   mkRaw 2 1 2 1 1 (some 2880) 10 10]

/-- Filtered table for C2/C5 witnesses: orders on day 0 and on day 2,
nothing on day 1. -/
def exC2 : List ApprovedOrder :=
  [mkOrd 1 1 1 1 1 0 1 1,
   mkOrd 2 1 2 1 1 2880 1 1]

/-- Filtered table for the C5 counterexample: the two line items of
order 1 carry approval timestamps on different calendar days. -/
def exC5 : List ApprovedOrder :=
  [mkOrd 1 1 1 1 1 0 1 1,
   mkOrd 1 2 1 1 1 1440 1 1]

/-- Filtered table for the C4 witness: customer 1 latest on day 3,
customer 2 latest on day 5. -/
def exC4 : List ApprovedOrder :=
  [mkOrd 1 1 1 1 1 4320 10 10,
   mkOrd 2 1 2 2 1 7200 10 10]

/-- Filtered table for the C6 witness: state is a functional attribute
of the customer (customer 1 ↦ state 1, customer 2 ↦ state 2);
customer 1 has two orders. -/
def exC6 : List ApprovedOrder :=
  [mkOrd 1 1 1 1 1 0 1 1,
   mkOrd 2 1 1 1 1 1440 1 1,
   mkOrd 3 1 2 2 1 1440 1 1]

/-- Filtered table for the C7 counterexample: ten distinct products,
all with aggregated quantity 1. -/
def exC7 : List ApprovedOrder :=
  [mkOrd 1 1 1 1 1 0 1 1,
   mkOrd 2 1 1 1 2 0 1 1,
   mkOrd 3 1 1 1 3 0 1 1,
   mkOrd 4 1 1 1 4 0 1 1,
   mkOrd 5 1 1 1 5 0 1 1,
   mkOrd 6 1 1 1 6 0 1 1,
   mkOrd 7 1 1 1 7 0 1 1,
   mkOrd 8 1 1 1 8 0 1 1,
   mkOrd 9 1 1 1 9 0 1 1,
   mkOrd 10 1 1 1 10 0 1 1]

/-- Filtered table for the C7 witness: ten distinct products with ten
distinct aggregated quantities 1, …, 10. -/
def exC7b : List ApprovedOrder :=
  [mkOrd 1 1 1 1 1 0 1 1,
   mkOrd 2 2 1 1 2 0 1 1,
   mkOrd 3 3 1 1 3 0 1 1,
   mkOrd 4 4 1 1 4 0 1 1,
   mkOrd 5 5 1 1 5 0 1 1,
   mkOrd 6 6 1 1 6 0 1 1,
   mkOrd 7 7 1 1 7 0 1 1,
   mkOrd 8 8 1 1 8 0 1 1,
   mkOrd 9 9 1 1 9 0 1 1,
   mkOrd 10 10 1 1 10 0 1 1]

/-- Geo table for the C8 witness: rows 0 and 2 share a state. -/
def exGeo : List GeoRow :=
  [{ geolocation_lat := 0, geolocation_lng := 0, customer_state := 7 },
   { geolocation_lat := 1, geolocation_lng := 1, customer_state := 4 },
   { geolocation_lat := 2, geolocation_lng := 2, customer_state := 7 }]

/-- Filtered table for the C10 witness: one order contributing three
line items of product 1, numbered 1, 2, 3. -/
def exC10 : List ApprovedOrder :=
  [mkOrd 1 1 1 1 1 0 1 1,
   mkOrd 1 2 1 1 1 0 1 1,
   mkOrd 1 3 1 1 1 0 1 1]

/-- The group key of the first row of `df` carrying value `v` (or the
default `dk` when no row does).  When the key is a functional attribute
of the value this is the unique group a value belongs to; it is the
fiber map relating per-group distinct counts to a global distinct
count. -/
def firstKeyOf {R κ ν : Type} [DecidableEq ν] (key : R → κ) (val : R → ν)
    (dk : κ) (df : List R) (v : ν) : κ :=
  match df.find? (fun r => decide (val r = v)) with
  | some r => key r
  | none => dk

theorem mainDf_bound_iff (s e t : Nat) (hse : s ≤ e) :
    (s * minutesPerDay ≤ t ∧ t ≤ e * minutesPerDay) ↔
      (s ≤ t / minutesPerDay ∧
        (t / minutesPerDay < e ∨ t = e * minutesPerDay)) := by
  unfold minutesPerDay
  omega

/-- A single raw row approved at minute 7260 (= day 5, 01:00). -/
def exC3 : List OrderRow :=
  [{ order_id := 1, order_item_id := 1, customer_id := 1,
     customer_state := 1, name_product := 1,
     order_approved_at := some 7260, price := 10, payment_value := 10 }]

/-- C3, counterexample: with the range `[4, 5]`, the row approved at
minute 7260 has truncated date `5`, inside the range, so the claimed
truncating filter keeps it — but the implemented filter compares the
full timestamp with midnight of day 5 (minute 7200) and drops it. -/
theorem C3_counterexample :
    mainDf exC3 4 5 = [] ∧ specTruncatingFilter exC3 4 5 ≠ [] := by
  decide

/-- C3 (amended): for `start ≤ end` the filter keeps exactly the rows
whose approval timestamp lies between midnight of the start date and
midnight of the end date; equivalently, the rows whose truncated date
is in `[start, end - 1]`, plus rows timestamped exactly at midnight of
the end date.  Rows later in the end date are excluded. -/
theorem C3_filter_window (all : List OrderRow) (s e : Nat) (hse : s ≤ e) :
    mainDf all s e = dateWindowFilter all s e := by
  induction all with
  | nil => rfl
  | cons r rest ih =>
      unfold mainDf dateWindowFilter at *
      simp only [List.filterMap_cons]
      cases h : r.order_approved_at with
      | none => simpa using ih
      | some t =>
          by_cases hc : s ≤ t / minutesPerDay ∧
              (t / minutesPerDay < e ∨ t = e * minutesPerDay)
          · simp only [if_pos hc, if_pos ((mainDf_bound_iff s e t hse).mpr hc)]
            rw [ih]
          · simp only [if_neg hc,
              if_neg (fun hx => hc ((mainDf_bound_iff s e t hse).mp hx))]
            exact ih

/-- Witness instantiating `C3_filter_window` on concrete data. -/
theorem C3_filter_window_witness :
    4 ≤ 5 ∧ mainDf exC3 4 5 = dateWindowFilter exC3 4 5 :=
  ⟨by decide, C3_filter_window exC3 4 5 (by decide)⟩

theorem foldl_min_le_init (l : List Nat) (i : Nat) : l.foldl min i ≤ i := by
  induction l generalizing i with
  | nil => exact le_refl i
  | cons x xs ih => exact le_trans (ih (min i x)) (min_le_left i x)

theorem foldl_min_le_mem :
    ∀ (l : List Nat) (i x : Nat), x ∈ l → l.foldl min i ≤ x
  | y :: ys, i, x, hx => by
      rcases List.mem_cons.mp hx with rfl | h
      · exact le_trans (foldl_min_le_init ys _) (min_le_right i x)
      · exact foldl_min_le_mem ys (min i y) x h

theorem init_le_foldl_max : ∀ (l : List Nat) (i : Nat), i ≤ l.foldl max i
  | [], i => le_refl i
  | x :: xs, i => le_trans (le_max_left i x) (init_le_foldl_max xs (max i x))

theorem mem_le_foldl_max :
    ∀ (l : List Nat) (i x : Nat), x ∈ l → x ≤ l.foldl max i
  | y :: ys, i, x, hx => by
      rcases List.mem_cons.mp hx with rfl | h
      · exact le_trans (le_max_right i x) (init_le_foldl_max ys _)
      · exact mem_le_foldl_max ys (max i y) x h

theorem foldl_max_le :
    ∀ (l : List Nat) (i b : Nat), i ≤ b → (∀ x ∈ l, x ≤ b) →
      l.foldl max i ≤ b
  | [], _, _, hi, _ => hi
  | y :: ys, i, b, hi, h =>
      foldl_max_le ys (max i y) b
        (max_le hi (h y (List.mem_cons_self y ys)))
        (fun x hx => h x (List.mem_cons_of_mem y hx))

theorem foldl_max_div :
    ∀ (l : List Nat) (i d : Nat),
      (l.foldl max i) / d = (l.map (fun x => x / d)).foldl max (i / d)
  | [], _, _ => rfl
  | y :: ys, i, d => by
      simp only [List.foldl_cons, List.map_cons]
      rw [foldl_max_div ys (max i y) d]
      rcases le_total i y with h | h
      · rw [max_eq_right h, max_eq_right (Nat.div_le_div_right h)]
      · rw [max_eq_left h, max_eq_left (Nat.div_le_div_right h)]

theorem minApprovalDay_le {df : List ApprovedOrder} {r : ApprovedOrder}
    (hr : r ∈ df) : minApprovalDay df ≤ approvalDay r := by
  cases df with
  | nil => cases hr
  | cons x rest =>
      rcases List.mem_cons.mp hr with rfl | h
      · exact foldl_min_le_init _ _
      · exact foldl_min_le_mem _ _ _ (List.mem_map_of_mem approvalDay h)

theorem le_maxApprovalDay {df : List ApprovedOrder} {r : ApprovedOrder}
    (hr : r ∈ df) : approvalDay r ≤ maxApprovalDay df := by
  cases df with
  | nil => cases hr
  | cons x rest =>
      rcases List.mem_cons.mp hr with rfl | h
      · exact init_le_foldl_max _ _
      · exact mem_le_foldl_max _ _ _ (List.mem_map_of_mem approvalDay h)

/-- C2, counterexample: with orders on days 0 and 2 only, the rollup
has three rows — `resample(rule='D')` emits a zero-valued row for day
1, which has no order, so days with zero orders are not omitted. -/
theorem C2_counterexample :
    (create_daily_orders_df exC2).length = 3 ∧
      DailyRow.mk 1 0 0 ∈ create_daily_orders_df exC2 ∧
      exC2.filter (fun r => approvalDay r = 1) = [] := by
  decide

/-- C2 (amended): for every non-empty filtered table the rollup has
exactly one row for every calendar day from the earliest to the latest
approval date inclusive, in ascending day order; each row aggregates
the rows of its day, and a day in that span with no orders appears as
a zero-valued row rather than being omitted. -/
theorem C2_rollup_dense (df : List ApprovedOrder) (h : df ≠ []) :
    ((create_daily_orders_df df).map (fun r => r.day)).Pairwise (· < ·) ∧
      (∀ r ∈ df,
        approvalDay r ∈ (create_daily_orders_df df).map (fun r => r.day)) ∧
      (∀ d, minApprovalDay df ≤ d → d ≤ maxApprovalDay df →
        DailyRow.mk d (ordersOnDay df d) (revenueOnDay df d) ∈
          create_daily_orders_df df) ∧
      (∀ row ∈ create_daily_orders_df df,
        minApprovalDay df ≤ row.day ∧ row.day ≤ maxApprovalDay df ∧
          row.order_count = ordersOnDay df row.day ∧
          row.revenue = revenueOnDay df row.day) := by
  match df, h with
  | r :: rest, _ =>
    have hab : minApprovalDay (r :: rest) ≤ maxApprovalDay (r :: rest) :=
      le_trans (minApprovalDay_le (List.mem_cons_self r rest))
        (le_maxApprovalDay (List.mem_cons_self r rest))
    have hunfold : create_daily_orders_df (r :: rest) =
        (List.range' (minApprovalDay (r :: rest))
          (maxApprovalDay (r :: rest) + 1 - minApprovalDay (r :: rest))).map
          (fun d => { day := d, order_count := ordersOnDay (r :: rest) d,
                      revenue := revenueOnDay (r :: rest) d }) := rfl
    have hdays : (create_daily_orders_df (r :: rest)).map (fun x => x.day) =
        List.range' (minApprovalDay (r :: rest))
          (maxApprovalDay (r :: rest) + 1 - minApprovalDay (r :: rest)) := by
      rw [hunfold, List.map_map]
      exact List.map_id' _
    refine ⟨?_, ?_, ?_, ?_⟩
    · rw [hdays]; exact List.pairwise_lt_range' _ _
    · intro x hx
      rw [hdays, List.mem_range'_1]
      exact ⟨minApprovalDay_le hx, by have := le_maxApprovalDay hx; omega⟩
    · intro d h1 h2
      have hd : d ∈ List.range' (minApprovalDay (r :: rest))
          (maxApprovalDay (r :: rest) + 1 - minApprovalDay (r :: rest)) := by
        rw [List.mem_range'_1]; omega
      rw [hunfold]
      exact List.mem_map_of_mem _ hd
    · intro row hrow
      rw [hunfold, List.mem_map] at hrow
      obtain ⟨d, hd, rfl⟩ := hrow
      rw [List.mem_range'_1] at hd
      refine ⟨hd.1, ?_, rfl, rfl⟩
      show d ≤ maxApprovalDay (r :: rest)
      omega

/-- Witness instantiating `C2_rollup_dense`: the zero-order day 1 of
`exC2` is present in the rollup. -/
theorem C2_rollup_dense_witness :
    exC2 ≠ [] ∧
      DailyRow.mk 1 (ordersOnDay exC2 1) (revenueOnDay exC2 1) ∈
        create_daily_orders_df exC2 :=
  ⟨by decide, (C2_rollup_dense exC2 (by decide)).2.2.1 1 (by decide) (by decide)⟩

theorem latestApprovalDate_le_referenceDate (df : List ApprovedOrder)
    (c : Nat) : latestApprovalDate df c ≤ referenceDate df := by
  unfold latestApprovalDate referenceDate
  rw [foldl_max_div, List.map_map]
  refine foldl_max_le _ _ _ (by simp) ?_
  intro x hx
  rw [List.mem_map] at hx
  obtain ⟨rr, hrr, rfl⟩ := hx
  exact mem_le_foldl_max _ _ _
    (List.mem_map_of_mem approvalDay (List.mem_of_mem_filter hrr))

/-- C4: in the output of the RFM segmentation, every recency is a
non-negative integer, and it is zero exactly when the customer's
latest approval date equals the reference date (the maximum approval
date over the input table). -/
theorem C4_recency (df : List ApprovedOrder) (row : RFMRow)
    (hrow : row ∈ create_rfm_df df) :
    0 ≤ row.recency ∧
      (row.recency = 0 ↔
        latestApprovalDate df row.customer_id = referenceDate df) := by
  unfold create_rfm_df at hrow
  rw [List.mem_map] at hrow
  obtain ⟨c, hc, rfl⟩ := hrow
  have hle := latestApprovalDate_le_referenceDate df c
  dsimp only
  omega

/-- Witness instantiating `C4_recency` on `exC4`: customer 1
(latest day 3, reference day 5) has recency 2. -/
theorem C4_recency_witness :
    (RFMRow.mk 1 2 1 10 ∈ create_rfm_df exC4) ∧
      (0 ≤ (RFMRow.mk 1 2 1 10).recency ∧
        ((RFMRow.mk 1 2 1 10).recency = 0 ↔
          latestApprovalDate exC4 (RFMRow.mk 1 2 1 10).customer_id =
            referenceDate exC4)) :=
  ⟨by decide, C4_recency exC4 _ (by decide)⟩

/-- C1, counterexample: with the range `[2, 2]`, the filtered table
keeps only customer 2, yet the displayed RFM table still contains a
row for customer 1, whose only order lies outside the range — the
displayed table is not computed from the filtered rows. -/
theorem C1_counterexample :
    1 ∈ (displayed_rfm_df exC1 2 2).map (fun r => r.customer_id) ∧
      (mainDf exC1 2 2).map (fun r => r.customer_id) = [2] := by
  decide

/-- C1 (amended): the RFM table the dashboard displays is computed
from the full, unfiltered Order Fact table: it is unchanged under any
choice of date range, and its customer rows are exactly the distinct
customers of the full table (sorted), with recency measured from the
maximum `order_approved_at` of the full table. -/
theorem C1_displayed_rfm_unfiltered (all : List OrderRow)
    (s e sa ea : Nat) :
    displayed_rfm_df all s e = displayed_rfm_df all sa ea ∧
      (displayed_rfm_df all s e).map (fun r => r.customer_id) =
        List.insertionSort (fun a b : Nat => a ≤ b)
          ((all.map (fun r => r.customer_id)).dedup) := by
  constructor
  · rfl
  · simp only [displayed_rfm_df]
    rw [List.map_map]
    exact List.map_id' _

theorem firstKeyOf_spec {R κ ν : Type} [DecidableEq ν] (key : R → κ)
    (val : R → ν) (dk : κ) (df : List R) (v : ν)
    (hv : ∃ r ∈ df, val r = v) :
    ∃ r0 ∈ df, val r0 = v ∧ firstKeyOf key val dk df v = key r0 := by
  obtain ⟨r, hr, hrv⟩ := hv
  have hsome : (df.find? (fun r => decide (val r = v))).isSome := by
    rw [List.find?_isSome]
    exact ⟨r, hr, by simp [hrv]⟩
  obtain ⟨r0, h0⟩ := Option.isSome_iff_exists.mp hsome
  have hval : val r0 = v := by simpa using List.find?_some h0
  refine ⟨r0, List.mem_of_find?_eq_some h0, hval, ?_⟩
  unfold firstKeyOf
  rw [h0]

/-- Splitting a distinct count along a group-by: when the group key is
a functional attribute of the counted value, the per-group counts of
distinct values sum to the global count of distinct values, over any
duplicate-free key list covering all rows. -/
theorem sum_nunique_fiberwise {R κ ν : Type} [DecidableEq κ]
    [DecidableEq ν] (df : List R) (key : R → κ) (val : R → ν) (dk : κ)
    (ks : List κ) (hnd : ks.Nodup) (hcov : ∀ r ∈ df, key r ∈ ks)
    (hFD : ∀ r ∈ df, ∀ rr ∈ df, val r = val rr → key r = key rr) :
    (ks.map (fun k =>
      ((df.filter (fun r => key r = k)).map val).dedup.length)).sum =
      (df.map val).dedup.length := by
  classical
  have hfiber : ∀ k : κ,
      ((df.filter (fun r => key r = k)).map val).toFinset =
        (df.map val).toFinset.filter
          (fun v => firstKeyOf key val dk df v = k) := by
    intro k
    ext v
    simp only [List.mem_toFinset, Finset.mem_filter, List.mem_map,
      List.mem_filter]
    constructor
    · rintro ⟨r, ⟨hr, hkr⟩, rfl⟩
      have hkey : key r = k := by simpa using hkr
      obtain ⟨r0, hr0, hv0, hkf⟩ :=
        firstKeyOf_spec key val dk df (val r) ⟨r, hr, rfl⟩
      exact ⟨⟨r, hr, rfl⟩, by rw [hkf, hFD r0 hr0 r hr hv0, hkey]⟩
    · rintro ⟨⟨r, hr, rfl⟩, hkfv⟩
      obtain ⟨r0, hr0, hv0, hkf⟩ :=
        firstKeyOf_spec key val dk df (val r) ⟨r, hr, rfl⟩
      refine ⟨r0, ⟨hr0, ?_⟩, hv0⟩
      rw [hkf] at hkfv
      simp [hkfv]
  have hmaps : ∀ v ∈ (df.map val).toFinset,
      firstKeyOf key val dk df v ∈ ks.toFinset := by
    intro v hv
    rw [List.mem_toFinset, List.mem_map] at hv
    obtain ⟨r, hr, rfl⟩ := hv
    obtain ⟨r0, hr0, hv0, hkf⟩ :=
      firstKeyOf_spec key val dk df (val r) ⟨r, hr, rfl⟩
    rw [List.mem_toFinset, hkf]
    exact hcov r0 hr0
  calc (ks.map (fun k =>
        ((df.filter (fun r => key r = k)).map val).dedup.length)).sum
      = ks.toFinset.sum (fun k =>
          ((df.filter (fun r => key r = k)).map val).dedup.length) :=
        (List.sum_toFinset _ hnd).symm
    _ = ks.toFinset.sum (fun k =>
          ((df.map val).toFinset.filter
            (fun v => firstKeyOf key val dk df v = k)).card) := by
        refine Finset.sum_congr rfl ?_
        intro k _
        rw [← List.card_toFinset, hfiber k]
    _ = (df.map val).toFinset.card :=
        (Finset.card_eq_sum_card_fiberwise hmaps).symm
    _ = (df.map val).dedup.length := List.card_toFinset _

/-- C5, counterexample: when the two line items of one order carry
approval timestamps on different calendar days, the rollup counts that
order once per day — the summed `order_count` is 2 although only one
distinct `order_id` exists. -/
theorem C5_counterexample :
    ((create_daily_orders_df exC5).map (fun r => r.order_count)).sum = 2 ∧
      ((exC5.map (fun r => r.order_id)).dedup).length = 1 := by
  decide

/-- C5 (amended): for every filtered table in which all line items of
an order share one approval date — as the order-level
`order_approved_at` attribute of the data model guarantees — the sum
of `order_count` over the Daily Orders Rollup equals the number of
distinct `order_id` values in the filtered set. -/
theorem C5_total_orders (df : List ApprovedOrder)
    (hFD : ∀ r ∈ df, ∀ rr ∈ df, r.order_id = rr.order_id →
      approvalDay r = approvalDay rr) :
    ((create_daily_orders_df df).map (fun r => r.order_count)).sum =
      ((df.map (fun r => r.order_id)).dedup).length := by
  match df with
  | [] => rfl
  | r :: rest =>
    have hunfold : create_daily_orders_df (r :: rest) =
        (List.range' (minApprovalDay (r :: rest))
          (maxApprovalDay (r :: rest) + 1 - minApprovalDay (r :: rest))).map
          (fun d => { day := d, order_count := ordersOnDay (r :: rest) d,
                      revenue := revenueOnDay (r :: rest) d }) := rfl
    rw [hunfold, List.map_map]
    have hcov : ∀ x ∈ r :: rest, approvalDay x ∈
        List.range' (minApprovalDay (r :: rest))
          (maxApprovalDay (r :: rest) + 1 - minApprovalDay (r :: rest)) := by
      intro x hx
      rw [List.mem_range'_1]
      have h1 := minApprovalDay_le hx
      have h2 := le_maxApprovalDay hx
      omega
    exact sum_nunique_fiberwise (r :: rest) approvalDay
      (fun x => x.order_id) 0 _ (List.nodup_range' _ _) hcov
      (fun x hx y hy h => hFD x hx y hy h)

/-- Witness instantiating `C5_total_orders` on `exC2`, whose two
orders sit on distinct days with a zero-order day between them. -/
theorem C5_total_orders_witness :
    ((create_daily_orders_df exC2).map (fun r => r.order_count)).sum =
      ((exC2.map (fun r => r.order_id)).dedup).length :=
  C5_total_orders exC2 (by decide)

/-- C6: when `customer_state` is a functional attribute of
`customer_id`, the Customer-by-State counts sum to the number of
distinct customers of the filtered set, and each per-state count is a
count of distinct customers of that state. -/
theorem C6_state_counts (df : List ApprovedOrder)
    (hFD : ∀ r ∈ df, ∀ rr ∈ df, r.customer_id = rr.customer_id →
      r.customer_state = rr.customer_state) :
    ((create_bystate_df df).map (fun r => r.customer_count)).sum =
      ((df.map (fun r => r.customer_id)).dedup).length ∧
      (∀ srow ∈ create_bystate_df df,
        srow.customer_count =
          ((df.filter (fun r => r.customer_state = srow.customer_state)).map
            (fun r => r.customer_id)).dedup.length) := by
  constructor
  · unfold create_bystate_df
    rw [List.map_map]
    refine sum_nunique_fiberwise df (fun r => r.customer_state)
      (fun r => r.customer_id) 0 _ ?_ ?_
      (fun x hx y hy h => (hFD x hx y hy h)) <;> clear hFD
    · exact (List.perm_insertionSort _ _).nodup_iff.mpr (List.nodup_dedup _)
    · intro r hr
      rw [(List.perm_insertionSort _ _).mem_iff, List.mem_dedup]
      exact List.mem_map_of_mem _ hr
  · intro srow hs
    unfold create_bystate_df at hs
    rw [List.mem_map] at hs
    obtain ⟨s, hsk, rfl⟩ := hs
    rfl

/-- Witness instantiating `C6_state_counts` on `exC6` (two states, two
customers, one customer with two orders). -/
theorem C6_state_counts_witness :
    ((create_bystate_df exC6).map (fun r => r.customer_count)).sum =
      ((exC6.map (fun r => r.customer_id)).dedup).length ∧
      (∀ srow ∈ create_bystate_df exC6,
        srow.customer_count =
          ((exC6.filter
              (fun r => r.customer_state = srow.customer_state)).map
            (fun r => r.customer_id)).dedup.length) :=
  C6_state_counts exC6 (by decide)

theorem getD_of_lt {α : Type} (l : List α) (i : Nat) (d : α)
    (h : i < l.length) : l.getD i d = l.get ⟨i, h⟩ := by
  rw [List.getD_eq_getElem?_getD, List.getElem?_eq_getElem h]
  rfl

theorem take5_quantity_ge (L : List ProdRow) (hs : List.Pairwise qtyGE L)
    (h5 : 5 ≤ L.length) (x : ProdRow) (hx : x ∈ L.take 5) :
    (L.map (fun r => r.quantity)).getD 4 0 ≤ x.quantity := by
  rw [List.mem_take_iff_getElem] at hx
  obtain ⟨i, hi, rfl⟩ := hx
  have hiL : i < L.length := lt_of_lt_of_le (lt_min_iff.mp hi).1 h5
  have h4 : 4 < L.length := by omega
  have h4m : 4 < (L.map (fun r => r.quantity)).length := by
    rw [List.length_map]; omega
  rw [getD_of_lt _ _ _ h4m]
  have hget : (L.map (fun r => r.quantity)).get ⟨4, h4m⟩ =
      (L.get ⟨4, h4⟩).quantity := List.getElem_map _
  rw [hget]
  rcases Nat.lt_or_ge i 4 with hlt | hge
  · exact List.pairwise_iff_getElem.mp hs i 4 hiL h4 hlt
  · have hieq : i = 4 := by
      have := (lt_min_iff.mp hi).1
      omega
    subst hieq
    exact le_refl _

theorem take5_quantity_le (L : List ProdRow) (hs : List.Pairwise qtyLE L)
    (h5 : 5 ≤ L.length) (x : ProdRow) (hx : x ∈ L.take 5) :
    x.quantity ≤ (L.map (fun r => r.quantity)).getD 4 0 := by
  rw [List.mem_take_iff_getElem] at hx
  obtain ⟨i, hi, rfl⟩ := hx
  have hiL : i < L.length := lt_of_lt_of_le (lt_min_iff.mp hi).1 h5
  have h4 : 4 < L.length := by omega
  have h4m : 4 < (L.map (fun r => r.quantity)).length := by
    rw [List.length_map]; omega
  rw [getD_of_lt _ _ _ h4m]
  have hget : (L.map (fun r => r.quantity)).get ⟨4, h4m⟩ =
      (L.get ⟨4, h4⟩).quantity := List.getElem_map _
  rw [hget]
  rcases Nat.lt_or_ge i 4 with hlt | hge
  · exact List.pairwise_iff_getElem.mp hs i 4 hiL h4 hlt
  · have hieq : i = 4 := by
      have := (lt_min_iff.mp hi).1
      omega
    subst hieq
    exact le_refl _

theorem sumOrderItems_labels_nodup (df : List ApprovedOrder) :
    ((create_sum_order_items_df df).map (fun r => r.name_product)).Nodup := by
  unfold create_sum_order_items_df
  rw [((List.perm_insertionSort qtyGE _).map
    (fun r : ProdRow => r.name_product)).nodup_iff, List.map_map]
  have h2 : ∀ ks : List Nat,
      List.map ((fun r : ProdRow => r.name_product) ∘ fun p =>
        ({ name_product := p,
           quantity := ((df.filter (fun r => r.name_product = p)).map
             (fun r => r.order_item_id)).sum } : ProdRow)) ks = ks :=
    fun ks => List.map_id' ks
  rw [h2]
  exact (List.perm_insertionSort _ _).nodup_iff.mpr (List.nodup_dedup _)

theorem mem_sumOrderItems {df : List ApprovedOrder} {row : ProdRow}
    (h : row ∈ create_sum_order_items_df df) :
    row.quantity = ((df.filter
      (fun r => r.name_product = row.name_product)).map
      (fun r => r.order_item_id)).sum := by
  unfold create_sum_order_items_df at h
  rw [List.mem_insertionSort, List.mem_map] at h
  obtain ⟨p, hp, rfl⟩ := h
  rfl

/-- C7, counterexample: ten distinct products, all with aggregated
quantity 1.  Ten distinct labels exist, yet product 1 appears in both
the top-5 descending and the top-5 ascending ranking — the tie-break
places the same rows at the head of both sorts, so the two rankings
are not disjoint. -/
theorem C7_counterexample :
    10 ≤ ((exC7.map (fun r => r.name_product)).dedup).length ∧
      1 ∈ bestProducts exC7 ∧ 1 ∈ worstProducts exC7 := by
  decide

/-- C7 (amended): the "best performing" and "worst performing" top-5
label sets are disjoint whenever the aggregate has at least 10 rows
(i.e. at least 10 distinct product labels) and the fifth-largest
aggregated quantity strictly exceeds the fifth-smallest one; when that
quantity gap vanishes (ties across the rank-5 boundary), the
unspecified tie-break may place a label in both sets. -/
theorem C7_best_worst_disjoint (df : List ApprovedOrder)
    (hlen : 10 ≤ (create_sum_order_items_df df).length)
    (hgap : fifthSmallestQuantity df < fifthLargestQuantity df) :
    ∀ p ∈ bestProducts df, p ∉ worstProducts df := by
  intro p hbest hworst
  have hsortL : List.Pairwise qtyGE (create_sum_order_items_df df) :=
    List.sorted_insertionSort qtyGE _
  have hsortM : List.Pairwise qtyLE
      (List.insertionSort qtyLE (create_sum_order_items_df df)) :=
    List.sorted_insertionSort qtyLE _
  have hlenM : (List.insertionSort qtyLE
      (create_sum_order_items_df df)).length =
      (create_sum_order_items_df df).length :=
    (List.perm_insertionSort qtyLE _).length_eq
  unfold bestProducts at hbest
  unfold worstProducts at hworst
  rw [List.mem_map] at hbest hworst
  obtain ⟨x, hx, hxp⟩ := hbest
  obtain ⟨y, hy, hyp⟩ := hworst
  have hxq := take5_quantity_ge _ hsortL (by omega) x hx
  have hyq := take5_quantity_le _ hsortM (by omega) y hy
  have hxL : x ∈ create_sum_order_items_df df := List.mem_of_mem_take hx
  have hyL : y ∈ create_sum_order_items_df df :=
    (List.perm_insertionSort qtyLE _).mem_iff.mp (List.mem_of_mem_take hy)
  have hxy : x = y :=
    List.inj_on_of_nodup_map (sumOrderItems_labels_nodup df) hxL hyL
      (hxp.trans hyp.symm)
  rw [hxy] at hxq
  unfold fifthLargestQuantity fifthSmallestQuantity at hgap
  omega

/-- Witness instantiating `C7_best_worst_disjoint` on `exC7b`, whose
ten products have the ten distinct quantities 1, …, 10. -/
theorem C7_best_worst_disjoint_witness :
    10 ≤ (create_sum_order_items_df exC7b).length ∧
      fifthSmallestQuantity exC7b < fifthLargestQuantity exC7b ∧
      (∀ p ∈ bestProducts exC7b, p ∉ worstProducts exC7b) :=
  ⟨by decide, by decide,
    C7_best_worst_disjoint exC7b (by decide) (by decide)⟩

/-- The sum 1 + 2 + ⋯ + k, doubled, is k(k+1). -/
theorem sum_range_one_two_mul :
    ∀ k : Nat, 2 * (List.range' 1 k).sum = k * (k + 1)
  | 0 => rfl
  | k + 1 => by
      have ih := sum_range_one_two_mul k
      rw [List.range'_concat, List.sum_append]
      have hx : List.sum [1 + 1 * k] = 1 + k := by simp
      rw [hx]
      have expand : (k + 1) * (k + 1 + 1) = k * (k + 1) + 2 * (k + 1) := by
        ring
      rw [expand]
      linarith [ih]

/-- C10: the Product Quantity Ranking's quantity for a label is the
sum of the `order_item_id` line-sequence numbers over that label's
rows — not the row count.  In particular an order contributing `k`
line items of a product numbered `1, …, k` yields quantity
`k(k+1)/2`, which strictly exceeds the line-item count `k` whenever
`k ≥ 2`. -/
theorem C10_quantity_sums_item_ids (df : List ApprovedOrder)
    (row : ProdRow) (hrow : row ∈ create_sum_order_items_df df) :
    row.quantity = ((df.filter
        (fun r => r.name_product = row.name_product)).map
        (fun r => r.order_item_id)).sum ∧
      (∀ k : Nat,
        ((df.filter (fun r => r.name_product = row.name_product)).map
          (fun r => r.order_item_id)) = List.range' 1 k →
        (row.quantity = k * (k + 1) / 2 ∧ (2 ≤ k → k < row.quantity))) := by
  have hq := mem_sumOrderItems hrow
  refine ⟨hq, ?_⟩
  intro k hk
  rw [hq, hk]
  have h2 := sum_range_one_two_mul k
  constructor
  · omega
  · intro h2k
    have h3 : k * 3 ≤ k * (k + 1) :=
      Nat.mul_le_mul_left k (by omega)
    omega

/-- Witness instantiating `C10_quantity_sums_item_ids` on `exC10`:
the three line items 1, 2, 3 of product 1 yield quantity 6 > 3. -/
theorem C10_quantity_sums_item_ids_witness :
    (ProdRow.mk 1 6 ∈ create_sum_order_items_df exC10) ∧
      ((ProdRow.mk 1 6).quantity = ((exC10.filter
          (fun r => r.name_product = (ProdRow.mk 1 6).name_product)).map
          (fun r => r.order_item_id)).sum ∧
        ((ProdRow.mk 1 6).quantity = 3 * (3 + 1) / 2 ∧
          (2 ≤ 3 → 3 < (ProdRow.mk 1 6).quantity))) :=
  ⟨by decide,
    ⟨(C10_quantity_sums_item_ids exC10 _ (by decide)).1,
      (C10_quantity_sums_item_ids exC10 _ (by decide)).2 3 (by decide)⟩⟩

theorem foldSeen_extends {α : Type} [DecidableEq α] :
    ∀ (l : List α) (seen : List α),
      ∃ t, l.foldl (fun acc x => if x ∈ acc then acc else acc ++ [x]) seen =
        seen ++ t
  | [], seen => ⟨[], by simp⟩
  | x :: xs, seen => by
      simp only [List.foldl_cons]
      by_cases hx : x ∈ seen
      · rw [if_pos hx]
        exact foldSeen_extends xs seen
      · rw [if_neg hx]
        obtain ⟨t, ht⟩ := foldSeen_extends xs (seen ++ [x])
        exact ⟨x :: t, by rw [ht, List.append_assoc]; rfl⟩

theorem factorizeGo_eq {α : Type} [DecidableEq α] :
    ∀ (l : List α) (seen : List α),
      factorizeGo l seen = l.map (fun x =>
        (l.foldl (fun acc x => if x ∈ acc then acc else acc ++ [x])
          seen).indexOf x)
  | [], _ => rfl
  | x :: xs, seen => by
      simp only [List.foldl_cons, List.map_cons]
      by_cases hx : x ∈ seen
      · rw [if_pos hx]
        unfold factorizeGo
        rw [if_pos hx, factorizeGo_eq xs seen]
        obtain ⟨t, ht⟩ := foldSeen_extends xs seen
        rw [ht, List.indexOf_append_of_mem hx]
      · rw [if_neg hx]
        unfold factorizeGo
        rw [if_neg hx, factorizeGo_eq xs (seen ++ [x])]
        obtain ⟨t, ht⟩ := foldSeen_extends xs (seen ++ [x])
        rw [ht, List.append_assoc, List.indexOf_append_of_not_mem hx,
          List.singleton_append, List.indexOf_cons_self, Nat.add_zero]

theorem factorize_eq_firstSeen_index {α : Type} [DecidableEq α]
    (l : List α) :
    factorize l = l.map (fun x => (firstSeen l).indexOf x) :=
  factorizeGo_eq l []

theorem getD_map_of_lt {α β : Type} (f : α → β) (l : List α) (i : Nat)
    (d : β) (h : i < l.length) :
    (l.map f).getD i d = f (l.get ⟨i, h⟩) := by
  have hm : i < (l.map f).length := by rw [List.length_map]; exact h
  rw [getD_of_lt _ _ _ hm, List.get_eq_getElem, List.getElem_map,
    List.get_eq_getElem]

/-- C8: geographic bucketing assigns each Geo Fact row the first-seen
enumeration index of its `customer_state` modulo the palette size (8):
rows with equal states receive equal `color_group` values, and every
assigned value is a valid palette index.  (Determinism across repeated
invocations on the same loaded dataset is definitional here: the
bucketing is a pure function of the geo table.) -/
theorem C8_color_groups (geo : List GeoRow) :
    addColorGroups geo = (geo.map (fun r => r.customer_state)).map
      (fun s => (firstSeen (geo.map (fun r => r.customer_state))).indexOf s %
        geoPalette.length) ∧
      (∀ i j, ∀ hi : i < (geo.map (fun r => r.customer_state)).length,
        ∀ hj : j < (geo.map (fun r => r.customer_state)).length,
        (geo.map (fun r => r.customer_state)).get ⟨i, hi⟩ =
          (geo.map (fun r => r.customer_state)).get ⟨j, hj⟩ →
        (addColorGroups geo).getD i 99 = (addColorGroups geo).getD j 99) ∧
      (∀ g ∈ addColorGroups geo, g < geoPalette.length) := by
  have h1 : addColorGroups geo =
      (geo.map (fun r => r.customer_state)).map
        (fun s =>
          (firstSeen (geo.map (fun r => r.customer_state))).indexOf s %
            geoPalette.length) := by
    unfold addColorGroups
    rw [factorize_eq_firstSeen_index, List.map_map]
    rfl
  refine ⟨h1, ?_, ?_⟩
  · intro i j hi hj heq
    rw [h1, getD_map_of_lt _ _ i 99 hi, getD_map_of_lt _ _ j 99 hj, heq]
  · intro g hg
    rw [h1, List.mem_map] at hg
    obtain ⟨s, hs, rfl⟩ := hg
    exact Nat.mod_lt _ (by decide)

/-- Witness instantiating `C8_color_groups` on `exGeo`: rows 0 and 2
share state 7 and receive the same color group. -/
theorem C8_color_groups_witness :
    (addColorGroups exGeo).getD 0 99 = (addColorGroups exGeo).getD 2 99 :=
  (C8_color_groups exGeo).2.1 0 2 (by decide) (by decide) (by decide)

/-- C9: the three-tier Brazil boundary acquisition never propagates a
failure — whatever the outcomes of the local and network tiers, it
returns a boundary; it prefers the local tier, then the network tier,
and when both fail it unconditionally returns the hardcoded bounding
box. -/
theorem C9_boundary_fallback (t1 t2 : Except String Boundary) :
    (∃ b, acquireBrazilBoundary t1 t2 = .ok b) ∧
      (∀ b, t1 = .ok b → acquireBrazilBoundary t1 t2 = .ok b) ∧
      (∀ e1 b, t1 = .error e1 → t2 = .ok b →
        acquireBrazilBoundary t1 t2 = .ok b) ∧
      (∀ e1 e2, t1 = .error e1 → t2 = .error e2 →
        acquireBrazilBoundary t1 t2 = .ok brazilBboxFallback) := by
  cases t1 <;> cases t2 <;>
    simp [acquireBrazilBoundary]

/-- Witness instantiating `C9_boundary_fallback`: both external tiers
fail, and the acquisition returns the hardcoded bounding box. -/
theorem C9_boundary_fallback_witness :
    acquireBrazilBoundary (.error "local tier failed")
        (.error "network tier failed") = .ok brazilBboxFallback :=
  (C9_boundary_fallback (.error "local tier failed")
    (.error "network tier failed")).2.2.2 "local tier failed"
    "network tier failed" rfl rfl
